import Mathlib

/-!
Shallow embedding of the blender_agent repository: the socket transport
client in blender_connection.py and the command wrapper functions in
blender_tools.py, together with theorems about their behaviour.

Remote collaborators (the Blender addon, asset services) are modelled as
oracles: a function giving, for each outgoing command, the outcome the
Python code would observe from send_command. Real time (time.sleep) is
modelled by counting the sleep calls.
-/

namespace BlenderSpec

/-- JSON values as decoded by the Python json module. Numbers are modelled
as integers (no claim concerns floating point); object fields keep
insertion order, mirroring Python dict order. -/
inductive JValue where
  | jNull
  | jBool (b : Bool)
  | jNum (n : Int)
  | jStr (s : String)
  | jArr (elements : List JValue)
  | jObj (fields : List (String × JValue))

/-- Outcome of running a piece of Python code: a returned value or a raised
exception, identified by its message text. -/
inductive PyResult (α : Type) where
  | ok (a : α)
  | exn (msg : String)

/-- Field lookup in a JSON object body: first match, as in a Python dict
(decoded JSON objects never hold a key twice). -/
def lookupField : List (String × JValue) → String → Option JValue
  | [], _ => none
  | (k, v) :: rest, key => if k = key then some v else lookupField rest key

/-- Python subscript or membership lookup on a decoded JSON value: some
value when the receiver is an object holding the key, none otherwise. -/
def objGet : JValue → String → Option JValue
  | .jObj fs, key => lookupField fs key
  | _, _ => none

/-- Python dict.get with a default value. -/
def objGetD (v : JValue) (key : String) (d : JValue) : JValue :=
  (objGet v key).getD d

/-- Field list of a decoded JSON object, as Python dict.items(). A receiver
that is not an object would raise in Python; no translated code path
reaches that case with a non-object. -/
def objFields : JValue → List (String × JValue)
  | .jObj fs => fs
  | _ => []

/-- Python truth value of a decoded JSON value. -/
def pyTruthy : JValue → Bool
  | .jNull => false
  | .jBool b => b
  | .jNum n => n != 0
  | .jStr s => s != ""
  | .jArr xs => !xs.isEmpty
  | .jObj fs => !fs.isEmpty

/-- Python truth value of an optional value (None is falsy). -/
def pyTruthyO : Option JValue → Bool
  | none => false
  | some v => pyTruthy v

/-- Python equality comparison between a decoded JSON value and a string
literal: true exactly when the value is that string. -/
def jEqStr : JValue → String → Bool
  | .jStr t, s => t == s
  | _, _ => false

/-- Python equality comparison between the result of dict.get (which may be
None) and a string literal. -/
def jEqStrO : Option JValue → String → Bool
  | some v, s => jEqStr v s
  | none, _ => false

/-- Python iteration over a decoded JSON value: lists yield their elements,
strings their characters, objects their keys; scalars are not iterable. -/
def pyElems : JValue → Option (List JValue)
  | .jArr xs => some xs
  | .jStr s => some (s.toList.map (fun c => .jStr (String.singleton c)))
  | .jObj fs => some (fs.map (fun p => .jStr p.1))
  | _ => none

/-- Single quote character, as used by Python repr of strings. -/
def pyQuoteChar : Char := Char.ofNat 39

/-- Wrap a string in single quotes, as Python repr of a string does (string
escaping inside repr is not modelled; no claim depends on it). -/
def pyQuote (s : String) : String :=
  String.singleton pyQuoteChar ++ s ++ String.singleton pyQuoteChar

mutual
/-- Python repr of a decoded JSON value: None, True and False spelled the
Python way, strings in single quotes, lists in brackets, dicts in braces. -/
def pyRepr : JValue → String
  | .jNull => "None"
  | .jBool b => if b then "True" else "False"
  | .jNum n => toString n
  | .jStr s => pyQuote s
  | .jArr xs => "[" ++ pyReprList xs ++ "]"
  | .jObj fs => "\x7b" ++ pyReprFields fs ++ "\x7d"

/-- Comma-separated Python repr of list elements. -/
def pyReprList : List JValue → String
  | [] => ""
  | [x] => pyRepr x
  | x :: y :: rest => pyRepr x ++ ", " ++ pyReprList (y :: rest)

/-- Comma-separated Python repr of dict items. -/
def pyReprFields : List (String × JValue) → String
  | [] => ""
  | [(k, v)] => pyQuote k ++ ": " ++ pyRepr v
  | (k, v) :: p :: rest => pyQuote k ++ ": " ++ pyRepr v ++ ", " ++ pyReprFields (p :: rest)
end

/-- Python str of a decoded JSON value, as used by f-string interpolation:
a string stays itself, anything else renders by repr. -/
def pyStr : JValue → String
  | .jStr s => s
  | v => pyRepr v

/-- One escaped character of a JSON string literal, as json.dumps writes
it (backslash and double quote; other escapes are not needed by any
translated string). -/
def jsonEscapeChar (c : Char) : String :=
  if c = Char.ofNat 92 then "\\\\"
  else if c = Char.ofNat 34 then "\\\""
  else String.singleton c

/-- Escaped body of a JSON string literal, as json.dumps writes it. -/
def jsonEscape (s : String) : String :=
  String.join (s.toList.map jsonEscapeChar)

/-- Indentation written by json.dumps with indent equal to 2. -/
def indentStr (lvl : Nat) : String := String.join (List.replicate lvl "  ")

mutual
/-- Serialization of a decoded JSON value as json.dumps with indent equal
to 2 produces it, at nesting level lvl. -/
def dumpsVal (lvl : Nat) : JValue → String
  | .jNull => "null"
  | .jBool b => if b then "true" else "false"
  | .jNum n => toString n
  | .jStr s => "\"" ++ jsonEscape s ++ "\""
  | .jArr [] => "[]"
  | .jArr (x :: xs) => "[\n" ++ dumpsArr (lvl + 1) (x :: xs) ++ "\n" ++ indentStr lvl ++ "]"
  | .jObj [] => "\x7b\x7d"
  | .jObj (f :: fs) => "\x7b\n" ++ dumpsFields (lvl + 1) (f :: fs) ++ "\n" ++ indentStr lvl ++ "\x7d"

/-- List elements serialized by json.dumps with indent equal to 2. -/
def dumpsArr (lvl : Nat) : List JValue → String
  | [] => ""
  | [x] => indentStr lvl ++ dumpsVal lvl x
  | x :: y :: rest => indentStr lvl ++ dumpsVal lvl x ++ ",\n" ++ dumpsArr lvl (y :: rest)

/-- Object fields serialized by json.dumps with indent equal to 2. -/
def dumpsFields (lvl : Nat) : List (String × JValue) → String
  | [] => ""
  | [(k, v)] => indentStr lvl ++ "\"" ++ jsonEscape k ++ "\": " ++ dumpsVal lvl v
  | (k, v) :: p :: rest =>
    indentStr lvl ++ "\"" ++ jsonEscape k ++ "\": " ++ dumpsVal lvl v ++ ",\n" ++ dumpsFields lvl (p :: rest)
end

/-- Python json.dumps of a value with indent equal to 2, as used by the
scene and object info tools. -/
def json_dumps_indent2 (v : JValue) : String := dumpsVal 0 v

/-- Insertion of an element into an already sorted list, going past every
element the comparator places no later than the new one; used to model the
stable Python builtin sorted. -/
def insertStable (le : α → α → Bool) (x : α) : List α → List α
  | [] => [x]
  | y :: ys => if le y x then y :: insertStable le x ys else x :: y :: ys

/-- Python builtin sorted: a stable sort of the list under the comparator
(le a b meaning a may come no later than b). For sorted with a key and
reverse set to True, the comparator compares keys with greater-or-equal. -/
def pySorted (le : α → α → Bool) (l : List α) : List α :=
  l.foldl (fun acc x => insertStable le x acc) []

/-! ## Transport client, blender_connection.py -/

/-- Embedding of BlenderConnection.connect (blender_connection.py, lines
18 to 31). The argument sock says whether a socket handle is cached on
self; connectOk whether an attempted OS-level connect would succeed. The
result gives the returned boolean, the new cached-handle state, and
whether a new socket connection was attempted. -/
def connect (sock : Bool) (connectOk : Bool) : Bool × Bool × Bool :=
  if sock then (true, true, false)
  else if connectOk then (true, true, true)
  else (false, false, true)

/-- Observable outcome of the receive-and-parse phase inside
BlenderConnection.send_command: a parsed JSON response, a socket timeout,
a connection-level error (ConnectionError, BrokenPipeError or
ConnectionResetError), a JSON decode error, or any other exception
(for instance one raised by receive_full_response). -/
inductive WireOutcome where
  | ok (response : JValue)
  | timeout
  | connError (msg : String)
  | decodeError (msg : String)
  | otherError (msg : String)

/-- Embedding of BlenderConnection.send_command (blender_connection.py,
lines 104 to 162). Inputs: whether a socket handle is cached, whether a
fresh connect would succeed, the wire outcome for this exchange, and the
command type with its parameter mapping. Output: the Python result (the
declared result mapping, or a raised exception) paired with the new
cached-handle state. A response whose status field is the string error
raises inside the try block; that plain Exception is caught by the final
generic handler, which clears the cached socket and re-raises with the
communication-error text. The JSON decode handler is the one branch that
leaves the cached socket in place. -/
def send_command (sock : Bool) (connectOk : Bool) (wire : WireOutcome)
    (commandType : String) (params : JValue) : PyResult JValue × Bool :=
  if ¬ sock ∧ ¬ connectOk then
    (.exn "Not connected to Blender", false)
  else
    match wire with
    | .ok response =>
      if jEqStrO (objGet response "status") "error" then
        (.exn ("Communication error with Blender: " ++
          pyStr (objGetD response "message" (.jStr "Unknown error from Blender"))), false)
      else
        (.ok (objGetD response "result" (.jObj [])), true)
    | .timeout =>
      (.exn "Timeout waiting for Blender response - try simplifying your request", false)
    | .connError m => (.exn ("Connection to Blender lost: " ++ m), false)
    | .decodeError m => (.exn ("Invalid response from Blender: " ++ m), true)
    | .otherError m => (.exn ("Communication error with Blender: " ++ m), false)

/-- JSON command document built by send_command (blender_connection.py,
lines 109 to 112) before serialization to the socket. -/
def command_json (commandType : String) (params : JValue) : JValue :=
  .jObj [("type", .jStr commandType), ("params", params)]

/-- One event observed by a sock.recv call inside receive_full_response: a
chunk of bytes (the empty chunk meaning the peer closed the connection), a
socket timeout, or a connection-level error. -/
inductive RecvEvent where
  | chunk (data : String)
  | timeout
  | connError (msg : String)

/-- Code run after the receive loop of receive_full_response ends without
returning (blender_connection.py, lines 88 to 102): try to parse what was
accumulated, raise otherwise. The parse oracle models a successful call of
json.loads on the decoded bytes. -/
def receiveAfterLoop (parse : String → Bool) (chunks : List String) : PyResult String :=
  if chunks.isEmpty then .exn "No data received"
  else if parse (String.join chunks) then .ok (String.join chunks)
  else .exn "Incomplete JSON response received"

/-- Receive loop of BlenderConnection.receive_full_response
(blender_connection.py, lines 50 to 86), given the sequence of recv events
and the chunks already accumulated. An exhausted event sequence behaves
like a timeout of the blocking recv. -/
def receiveLoop (parse : String → Bool) : List RecvEvent → List String → PyResult String
  | [], chunks => receiveAfterLoop parse chunks
  | .chunk d :: rest, chunks =>
    if d = "" then
      if chunks.isEmpty then .exn "Connection closed before receiving any data"
      else receiveAfterLoop parse chunks
    else if parse (String.join (chunks ++ [d])) then .ok (String.join (chunks ++ [d]))
    else receiveLoop parse rest (chunks ++ [d])
  | .timeout :: _, chunks => receiveAfterLoop parse chunks
  | .connError m :: _, _ => .exn m

/-- Embedding of BlenderConnection.receive_full_response
(blender_connection.py, lines 44 to 102). -/
def receive_full_response (parse : String → Bool) (events : List RecvEvent) : PyResult String :=
  receiveLoop parse events []

/-! ## Command plumbing shared by the tool wrappers

Each wrapper function in blender_tools.py runs against the module-global
BlenderConnection and issues zero or more send_command calls. The remote
side is modelled by an environment giving the observable outcome of the
n-th send_command call of the wrapper, and each wrapper returns its Python
result together with a trace: the list of commands sent (command type and
parameter mapping) and the number of time.sleep calls made. -/

/-- Environment: outcome of a send_command call, indexed by how many calls
the wrapper made before it, the command type, and the parameters. -/
def EnvT := Nat → String → JValue → PyResult JValue

/-- Trace of a wrapper run: commands sent so far and sleep calls made. -/
structure TraceSt where
  calls : List (String × JValue)
  sleeps : Nat

/-- Trace at the start of a wrapper call. -/
def initSt : TraceSt := ⟨[], 0⟩

/-- One send_command call made by a wrapper: the environment provides the
outcome and the command is appended to the trace. -/
def callCmd (env : EnvT) (st : TraceSt) (commandType : String) (params : JValue) :
    PyResult JValue × TraceSt :=
  (env st.calls.length commandType params, ⟨st.calls ++ [(commandType, params)], st.sleeps⟩)

/-- Environment induced by a remote peer that answers every command with a
well-formed JSON response document, as observed through send_command over a
live connection. -/
def envOfResponses (resp : Nat → String → JValue → JValue) : EnvT :=
  fun i t p => (send_command true true (.ok (resp i t p)) t p).1

/-- Embedding of BlenderConnection.get_polyhaven_status
(blender_connection.py, lines 164 to 171): any exception from send_command
is caught and turned into a disabled-status mapping holding the exception
text; the method itself never raises. -/
def BlenderConnection.get_polyhaven_status (env : EnvT) (st : TraceSt) : JValue × TraceSt :=
  match callCmd env st "get_polyhaven_status" (.jObj []) with
  | (.ok r, st2) => (r, st2)
  | (.exn m, st2) => (.jObj [("enabled", .jBool false), ("message", .jStr m)], st2)

/-- Embedding of BlenderConnection.get_hyper3d_status
(blender_connection.py, lines 173 to 180), same shape as the PolyHaven
status check. -/
def BlenderConnection.get_hyper3d_status (env : EnvT) (st : TraceSt) : JValue × TraceSt :=
  match callCmd env st "get_hyper3d_status" (.jObj []) with
  | (.ok r, st2) => (r, st2)
  | (.exn m, st2) => (.jObj [("enabled", .jBool false), ("message", .jStr m)], st2)

/-! ## Command wrapper tools, blender_tools.py

The wrappers have no try blocks of their own: an exception raised by
send_command propagates out of the wrapper, which the PyResult component
records as exn. String results are returned as jStr values; the few code
paths that return a raw decoded value return it unchanged. -/

/-- Embedding of get_scene_info (blender_tools.py, lines 34 to 42). -/
def get_scene_info (env : EnvT) : PyResult JValue × TraceSt :=
  match callCmd env initSt "get_scene_info" (.jObj []) with
  | (.exn m, st) => (.exn m, st)
  | (.ok result, st) => (.ok (.jStr (json_dumps_indent2 result)), st)

/-- Embedding of create_object (blender_tools.py, lines 58 to 89). The
optional arguments are included in the parameter mapping exactly when they
are truthy, as the Python code tests them with a plain if. The name field
of the result mapping is read with a subscript, so a result without it
makes the wrapper raise a KeyError. -/
def create_object (env : EnvT) (type : String) (name : Option String)
    (location rotation scale : Option JValue) : PyResult JValue × TraceSt :=
  let params := JValue.jObj
    ([("type", .jStr type)]
      ++ (match name with
          | some n => if n = "" then [] else [("name", .jStr n)]
          | none => [])
      ++ (match location with
          | some l => if pyTruthy l then [("location", l)] else []
          | none => [])
      ++ (match rotation with
          | some r => if pyTruthy r then [("rotation", r)] else []
          | none => [])
      ++ (match scale with
          | some s => if pyTruthy s then [("scale", s)] else []
          | none => []))
  match callCmd env initSt "create_object" params with
  | (.exn m, st) => (.exn m, st)
  | (.ok result, st) =>
    match objGet result "name" with
    | some v => (.ok (.jStr ("Created " ++ type ++ " object: " ++ pyStr v)), st)
    | none => (.exn ("KeyError: " ++ pyQuote "name"), st)

/-- Comma-space join of the elements of a decoded JSON list, as the Python
str.join calls in blender_tools.py produce (the code only joins lists of
strings). -/
def joinCommaList (v : JValue) : String :=
  match v with
  | .jArr xs => String.intercalate ", " (xs.map pyStr)
  | _ => ""

/-- Sort key used on PolyHaven mappings: the numeric value, with zero for
the default. Non-numeric counts would make the Python comparison raise;
no claim concerns them. -/
def jNumKey (v : JValue) : Int :=
  match v with
  | .jNum n => n
  | _ => 0

/-- Embedding of get_polyhaven_categories (blender_tools.py, lines 232 to
264): status check first, then the command, then a formatted listing of
the categories sorted by asset count, descending. -/
def get_polyhaven_categories (env : EnvT) (asset_type : String) : PyResult JValue × TraceSt :=
  let r := BlenderConnection.get_polyhaven_status env initSt
  let ph_status := r.1
  let st1 := r.2
  if ¬ pyTruthy (objGetD ph_status "enabled" (.jBool false)) then
    (.ok (objGetD ph_status "message" (.jStr "PolyHaven integration is not enabled in Blender.")), st1)
  else
    match callCmd env st1 "get_polyhaven_categories" (.jObj [("asset_type", .jStr asset_type)]) with
    | (.exn m, st2) => (.exn m, st2)
    | (.ok result, st2) =>
      match objGet result "error" with
      | some err => (.ok (.jStr ("Error: " ++ pyStr err)), st2)
      | none =>
        let categories := objGetD result "categories" (.jObj [])
        let sorted_categories := pySorted
          (fun a b => decide (jNumKey b.2 ≤ jNumKey a.2)) (objFields categories)
        let body := String.join (sorted_categories.map
          (fun p => "- " ++ p.1 ++ ": " ++ pyStr p.2 ++ " assets\n"))
        (.ok (.jStr ("Categories for " ++ asset_type ++ ":\n\n" ++ body)), st2)

/-- Display name of a PolyHaven asset type index, from the literal list
subscript in search_polyhaven_assets; negative Python indices count from
the end, and other indices raise. -/
def polyhavenTypeName (v : JValue) : PyResult String :=
  match v with
  | .jNum n =>
    if n = 0 ∨ n = -3 then .ok "HDRI"
    else if n = 1 ∨ n = -2 then .ok "Texture"
    else if n = 2 ∨ n = -1 then .ok "Model"
    else .exn "IndexError: list index out of range"
  | _ => .exn "TypeError: list indices must be integers"

/-- Formatted block for one asset in the search_polyhaven_assets listing
(blender_tools.py, lines 309 to 313). -/
def format_polyhaven_asset (asset_id : String) (asset_data : JValue) : PyResult String :=
  match polyhavenTypeName (objGetD asset_data "type" (.jNum 0)) with
  | .exn m => .exn m
  | .ok tname =>
    .ok ("- " ++ pyStr (objGetD asset_data "name" (.jStr asset_id)) ++
      " (ID: " ++ asset_id ++ ")\n" ++
      "  Type: " ++ tname ++ "\n" ++
      "  Categories: " ++ joinCommaList (objGetD asset_data "categories" (.jArr [])) ++ "\n" ++
      "  Downloads: " ++ pyStr (objGetD asset_data "download_count" (.jStr "Unknown")) ++ "\n\n")

/-- Concatenated listing blocks for the sorted assets, stopping at the
first asset whose block raises. -/
def format_polyhaven_assets : List (String × JValue) → PyResult String
  | [] => .ok ""
  | (asset_id, asset_data) :: rest =>
    match format_polyhaven_asset asset_id asset_data with
    | .exn m => .exn m
    | .ok s =>
      match format_polyhaven_assets rest with
      | .exn m => .exn m
      | .ok srest => .ok (s ++ srest)

/-- Embedding of search_polyhaven_assets (blender_tools.py, lines 267 to
315): status check, the search command, then a listing of the returned
assets sorted by download count, descending. -/
def search_polyhaven_assets (env : EnvT) (asset_type : String) (categories : Option String) :
    PyResult JValue × TraceSt :=
  let r := BlenderConnection.get_polyhaven_status env initSt
  let ph_status := r.1
  let st1 := r.2
  if ¬ pyTruthy (objGetD ph_status "enabled" (.jBool false)) then
    (.ok (objGetD ph_status "message" (.jStr "PolyHaven integration is not enabled in Blender.")), st1)
  else
    let params := JValue.jObj
      ([("asset_type", .jStr asset_type)]
        ++ (match categories with
            | some c => if c = "" then [] else [("categories", .jStr c)]
            | none => []))
    match callCmd env st1 "search_polyhaven_assets" params with
    | (.exn m, st2) => (.exn m, st2)
    | (.ok result, st2) =>
      match objGet result "error" with
      | some err => (.ok (.jStr ("Error: " ++ pyStr err)), st2)
      | none =>
        let assets := objGetD result "assets" (.jObj [])
        let total_count := objGetD result "total_count" (.jNum 0)
        let returned_count := objGetD result "returned_count" (.jNum 0)
        let header := "Found " ++ pyStr total_count ++ " assets"
          ++ (match categories with
              | some c => if c = "" then "" else " in categories: " ++ c
              | none => "")
          ++ "\nShowing " ++ pyStr returned_count ++ " assets:\n\n"
        let sorted_assets := pySorted
          (fun a b => decide (jNumKey (objGetD b.2 "download_count" (.jNum 0)) ≤
            jNumKey (objGetD a.2 "download_count" (.jNum 0))))
          (objFields assets)
        match format_polyhaven_assets sorted_assets with
        | .exn m => (.exn m, st2)
        | .ok body => (.ok (.jStr (header ++ body)), st2)

/-- Embedding of download_polyhaven_asset (blender_tools.py, lines 318 to
372): status check, the download command, then a message depending on the
asset type. The fall-through branch for an unknown asset type returns the
raw message value, as the Python code does. -/
def download_polyhaven_asset (env : EnvT) (asset_id asset_type resolution : String)
    (file_format : Option String) : PyResult JValue × TraceSt :=
  let r := BlenderConnection.get_polyhaven_status env initSt
  let ph_status := r.1
  let st1 := r.2
  if ¬ pyTruthy (objGetD ph_status "enabled" (.jBool false)) then
    (.ok (objGetD ph_status "message" (.jStr "PolyHaven integration is not enabled in Blender.")), st1)
  else
    let params := JValue.jObj
      ([("asset_id", .jStr asset_id), ("asset_type", .jStr asset_type),
        ("resolution", .jStr resolution)]
        ++ (match file_format with
            | some f => if f = "" then [] else [("file_format", .jStr f)]
            | none => []))
    match callCmd env st1 "download_polyhaven_asset" params with
    | (.exn m, st2) => (.exn m, st2)
    | (.ok result, st2) =>
      match objGet result "error" with
      | some err => (.ok (.jStr ("Error: " ++ pyStr err)), st2)
      | none =>
        if pyTruthy (objGetD result "success" .jNull) then
          let message := objGetD result "message" (.jStr "Asset downloaded and imported successfully")
          if asset_type = "hdris" then
            (.ok (.jStr (pyStr message ++ ". The HDRI has been set as the world environment.")), st2)
          else if asset_type = "textures" then
            let material_name := objGetD result "material" (.jStr "")
            let maps := joinCommaList (objGetD result "maps" (.jArr []))
            (.ok (.jStr (pyStr message ++ ". Created material " ++ pyQuote (pyStr material_name) ++
              " with maps: " ++ maps ++ ".")), st2)
          else if asset_type = "models" then
            let imported_objects := joinCommaList (objGetD result "imported_objects" (.jArr []))
            (.ok (.jStr (pyStr message ++ ". Imported objects: " ++ imported_objects ++ ".")), st2)
          else
            (.ok message, st2)
        else
          (.ok (.jStr ("Failed to download asset: " ++
            pyStr (objGetD result "message" (.jStr "Unknown error")))), st2)

/-- Embedding of set_texture (blender_tools.py, lines 375 to 409): status
check, the set_texture command, then a success or failure message. -/
def set_texture (env : EnvT) (object_name texture_id : String) : PyResult JValue × TraceSt :=
  let r := BlenderConnection.get_polyhaven_status env initSt
  let ph_status := r.1
  let st1 := r.2
  if ¬ pyTruthy (objGetD ph_status "enabled" (.jBool false)) then
    (.ok (objGetD ph_status "message" (.jStr "PolyHaven integration is not enabled in Blender.")), st1)
  else
    let params := JValue.jObj [("object_name", .jStr object_name), ("texture_id", .jStr texture_id)]
    match callCmd env st1 "set_texture" params with
    | (.exn m, st2) => (.exn m, st2)
    | (.ok result, st2) =>
      match objGet result "error" with
      | some err => (.ok (.jStr ("Error: " ++ pyStr err)), st2)
      | none =>
        if pyTruthy (objGetD result "success" .jNull) then
          let material_name := objGetD result "material" (.jStr "")
          let maps := joinCommaList (objGetD result "maps" (.jArr []))
          (.ok (.jStr ("Successfully applied texture " ++ pyQuote texture_id ++ " to " ++
            object_name ++ " using material " ++ pyQuote (pyStr material_name) ++
            " with maps: " ++ maps ++ ".")), st2)
        else
          (.ok (.jStr ("Failed to apply texture: " ++
            pyStr (objGetD result "message" (.jStr "Unknown error")))), st2)

/-! ## Hyper3D Rodin generation, blender_tools.py lines 427 to 524 -/

/-- Attempt budget of the polling loop (blender_tools.py, line 474). -/
def max_attempts : Nat := 60

/-- Seconds slept between poll attempts (blender_tools.py, line 505). -/
def sleep_interval_seconds : Nat := 5

/-- What one poll response makes the loop body do (blender_tools.py, lines
485 to 502): break out as complete, fall through to the next attempt,
return a failure message, or raise. A status_list is checked for all
entries equal to Done, then for any entry equal to Failed; a plain status
is compared against COMPLETED and the two in-progress markers. -/
inductive StepRes where
  | complete
  | keepPolling
  | failed (msg : String)
  | raised (msg : String)

/-- Classification of one poll response by the loop body of
generate_3d_model_from_text. -/
def pollStep (status_result : JValue) : StepRes :=
  match objGet status_result "status_list" with
  | some statuses =>
    match pyElems statuses with
    | none => .raised "TypeError: the status list is not iterable"
    | some xs =>
      if xs.all (fun x => jEqStr x "Done") then .complete
      else if xs.any (fun x => jEqStr x "Failed") then
        .failed ("Error: Job failed with status: " ++ pyStr statuses)
      else .keepPolling
  | none =>
    match objGet status_result "status" with
    | some status =>
      if jEqStr status "COMPLETED" then .complete
      else if jEqStr status "IN_PROGRESS" ∨ jEqStr status "IN_QUEUE" then .keepPolling
      else .failed ("Error: Job failed with status: " ++ pyStr status)
    | none => .keepPolling

/-- How the polling loop ended: broke out on completion, returned early
(a failure message or a propagating exception), or exhausted the attempt
budget. -/
inductive LoopExit where
  | completed
  | returned (v : PyResult JValue)
  | exhausted

/-- Polling loop of generate_3d_model_from_text (blender_tools.py, lines
474 to 505), by remaining attempts. Every attempt that falls through to
another one performs a time.sleep call, counted in the trace, including
the final attempt before the budget runs out. -/
def pollLoop (env : EnvT) (poll_params : JValue) : Nat → TraceSt → LoopExit × TraceSt
  | 0, st => (.exhausted, st)
  | fuel + 1, st =>
    match callCmd env st "poll_rodin_job_status" poll_params with
    | (.exn m, st2) => (.returned (.exn m), st2)
    | (.ok status_result, st2) =>
      match pollStep status_result with
      | .complete => (.completed, st2)
      | .failed m => (.returned (.ok (.jStr m)), st2)
      | .raised m => (.returned (.exn m), st2)
      | .keepPolling => pollLoop env poll_params fuel ⟨st2.calls, st2.sleeps + 1⟩

/-- Polling phase and import phase of generate_3d_model_from_text
(blender_tools.py, lines 473 to 524), after the job identifiers have been
extracted from the job creation result. The poll parameters carry the
subscription key or request id exactly when the extracted value is truthy,
and likewise for the import parameters. -/
def rodin_poll_and_import (env : EnvT) (model_name : String)
    (job_id subscription_key request_id : Option JValue) (st : TraceSt) :
    PyResult JValue × TraceSt :=
  let poll_params : JValue :=
    if pyTruthyO subscription_key then .jObj [("subscription_key", subscription_key.getD .jNull)]
    else if pyTruthyO request_id then .jObj [("request_id", request_id.getD .jNull)]
    else .jObj []
  match pollLoop env poll_params max_attempts st with
  | (.returned v, st2) => (v, st2)
  | (.exhausted, st2) => (.ok (.jStr "Error: Job timed out without completion"), st2)
  | (.completed, st2) =>
    let import_params : JValue :=
      if pyTruthyO job_id then
        .jObj [("name", .jStr model_name), ("task_uuid", job_id.getD .jNull)]
      else if pyTruthyO request_id then
        .jObj [("name", .jStr model_name), ("request_id", request_id.getD .jNull)]
      else .jObj [("name", .jStr model_name)]
    match callCmd env st2 "import_generated_asset" import_params with
    | (.exn m, st3) => (.exn m, st3)
    | (.ok import_result, st3) =>
      if ¬ pyTruthy (objGetD import_result "succeed" (.jBool false)) then
        (.ok (.jStr ("Error importing generated model: " ++
          pyStr (objGetD import_result "error" (.jStr "Unknown error")))), st3)
      else
        (.ok (.jStr ("Successfully generated and imported 3D model " ++ pyQuote model_name ++
          " based on the text prompt.")), st3)

/-- Embedding of generate_3d_model_from_text (blender_tools.py, lines 427
to 524): Hyper3D status check, job creation, identifier extraction, then
polling and import. -/
def generate_3d_model_from_text (env : EnvT) (text_prompt model_name : String)
    (bbox_condition : Option JValue) : PyResult JValue × TraceSt :=
  let r := BlenderConnection.get_hyper3d_status env initSt
  let h3d_status := r.1
  let st1 := r.2
  if ¬ pyTruthy (objGetD h3d_status "enabled" (.jBool false)) then
    (.ok (objGetD h3d_status "message"
      (.jStr "Hyper3D Rodin integration is not enabled in Blender.")), st1)
  else
    let job_params := JValue.jObj [("text_prompt", .jStr text_prompt), ("images", .jNull),
      ("bbox_condition", bbox_condition.getD .jNull)]
    match callCmd env st1 "create_rodin_job" job_params with
    | (.exn m, st2) => (.exn m, st2)
    | (.ok job_result, st2) =>
      match objGet job_result "error" with
      | some err => (.ok (.jStr ("Error creating generation job: " ++ pyStr err)), st2)
      | none =>
        match objGet job_result "uuid" with
        | some u =>
          rodin_poll_and_import env model_name (some u)
            (objGet (objGetD job_result "jobs" (.jObj [])) "subscription_key") none st2
        | none =>
          match objGet job_result "request_id" with
          | some rid => rodin_poll_and_import env model_name none none (some rid) st2
          | none =>
            (.ok (.jStr ("Error: Unexpected job result format: " ++ pyStr job_result)), st2)

/-! ## Concrete remote environments used by the generation theorems -/

/-- Job creation result carrying a uuid, the main-site API shape. -/
def okJob : PyResult JValue := .ok (.jObj [("uuid", .jStr "j1")])

/-- Import result reporting success. -/
def okImport : PyResult JValue := .ok (.jObj [("succeed", .jBool true)])

/-- Remote environment for a generation run: Hyper3D enabled, a given job
creation outcome, per-attempt poll outcomes (the n-th poll is the call at
index n plus two, after the status check and the job creation), and a
given import outcome. -/
def mkGenEnv (job : PyResult JValue) (polls : Nat → PyResult JValue)
    (imp : PyResult JValue) : EnvT :=
  fun i t _p =>
    if t = "get_hyper3d_status" then .ok (.jObj [("enabled", .jBool true)])
    else if t = "create_rodin_job" then job
    else if t = "poll_rodin_job_status" then polls (i - 2)
    else if t = "import_generated_asset" then imp
    else .ok (.jObj [])

/-- Parameter mapping of the job creation command for the prompt p and no
bounding box. -/
def rodinJobParams : JValue :=
  .jObj [("text_prompt", .jStr "p"), ("images", .jNull), ("bbox_condition", .jNull)]

/-- Commands a generation run sends before it starts polling. -/
def rodinLeadCalls : List (String × JValue) :=
  [("get_hyper3d_status", .jObj []), ("create_rodin_job", rodinJobParams)]

/-- Trace state at the start of the polling loop of a generation run. -/
def rodinSt2 : TraceSt := ⟨rodinLeadCalls, 0⟩

/-- Import command issued after a completed job with uuid j1 and model
name m. -/
def rodinImportCall : String × JValue :=
  ("import_generated_asset", .jObj [("name", .jStr "m"), ("task_uuid", .jStr "j1")])

/-- Success message of a generation run for model name m. -/
def rodinSuccessMsg : String :=
  "Successfully generated and imported 3D model " ++ pyQuote "m" ++
    " based on the text prompt."

/-! ## Theorems -/

/-- C8: BlenderConnection.connect is idempotent: when a socket handle is
already cached, calling connect again returns True immediately, leaves the
cached connection state unchanged, and attempts no new socket connection,
whatever a fresh connect attempt would have done. -/
theorem connect_idempotent_when_cached :
    ∀ connectOk : Bool, connect true connectOk = (true, true, false) :=
  fun _ => rfl

/-- C3: for every command sent through send_command over a connection (a
cached socket, or a fresh connect that succeeds), a response parsing as a
JSON object with status success and a result mapping makes send_command
return exactly that result mapping, unchanged, keeping the socket. -/
theorem send_command_success_returns_result :
    ∀ (sock connectOk : Bool) (response res : JValue) (t : String) (p : JValue)
      (fields : List (String × JValue)),
      (sock = true ∨ connectOk = true) →
      objGet response "status" = some (.jStr "success") →
      objGet response "result" = some res →
      res = .jObj fields →
      send_command sock connectOk (.ok response) t p = (.ok res, true) := by
  intro sock cOk response res t p fields h hs hr _
  have hguard : ¬(¬ sock = true ∧ ¬ cOk = true) := by
    rcases h with h | h <;> subst h <;> simp
  unfold send_command
  rw [if_neg hguard]
  simp [jEqStrO, hs, jEqStr, objGetD, hr]

/-- Witness for C3 at a concrete success response. -/
theorem send_command_success_returns_result_witness :
    send_command true true
      (.ok (.jObj [("status", .jStr "success"), ("result", .jObj [("name", .jStr "Box1")])]))
      "create_object" (.jObj []) = (.ok (.jObj [("name", .jStr "Box1")]), true) :=
  send_command_success_returns_result true true _ _ "create_object" (.jObj [])
    [("name", .jStr "Box1")] (Or.inl rfl) rfl rfl rfl

/-- C6: when send_command fails with a receive timeout or a
connection-level error, it clears the cached socket handle before raising,
and a subsequent call with no cached handle attempts a fresh socket
connection. -/
theorem send_command_failure_invalidates_socket :
    ∀ (sock connectOk : Bool) (wire : WireOutcome) (t : String) (p : JValue),
      (sock = true ∨ connectOk = true) →
      (wire = .timeout ∨ ∃ m, wire = .connError m) →
      ((send_command sock connectOk wire t p).2 = false ∧
        ∃ msg, (send_command sock connectOk wire t p).1 = .exn msg) ∧
      ∀ c2 : Bool, (connect false c2).2.2 = true := by
  intro sock cOk wire t p h hw
  have hguard : ¬(¬ sock = true ∧ ¬ cOk = true) := by
    rcases h with h | h <;> subst h <;> simp
  refine ⟨?_, fun c2 => by cases c2 <;> rfl⟩
  rcases hw with hw | ⟨m, hw⟩ <;> subst hw <;>
    exact ⟨by unfold send_command; rw [if_neg hguard],
           ⟨_, by unfold send_command; rw [if_neg hguard]⟩⟩

/-- Witness for C6 at a concrete timeout over a live connection. -/
theorem send_command_failure_invalidates_socket_witness :
    (((send_command true true .timeout "get_scene_info" (.jObj [])).2 = false ∧
      ∃ msg, (send_command true true .timeout "get_scene_info" (.jObj [])).1 = .exn msg) ∧
     ∀ c2 : Bool, (connect false c2).2.2 = true) :=
  send_command_failure_invalidates_socket true true .timeout "get_scene_info" (.jObj [])
    (Or.inl rfl) (Or.inl rfl)

/-- C9: the status-check methods return a value for every outcome of
send_command (their Lean type is a plain value, not a PyResult, mirroring
the try block that swallows every exception), and when send_command raises
they return the disabled mapping holding the exception text. -/
theorem status_checks_never_raise :
    ∀ (env : EnvT) (st : TraceSt) (m : String),
      (env st.calls.length "get_polyhaven_status" (.jObj []) = .exn m →
        (BlenderConnection.get_polyhaven_status env st).1 =
          .jObj [("enabled", .jBool false), ("message", .jStr m)]) ∧
      (env st.calls.length "get_hyper3d_status" (.jObj []) = .exn m →
        (BlenderConnection.get_hyper3d_status env st).1 =
          .jObj [("enabled", .jBool false), ("message", .jStr m)]) := by
  intro env st m
  constructor <;> intro h <;>
    simp [BlenderConnection.get_polyhaven_status, BlenderConnection.get_hyper3d_status,
      callCmd, h]

/-- Witness for C9 at an environment whose status commands always raise. -/
theorem status_checks_never_raise_witness :
    (BlenderConnection.get_polyhaven_status (fun _ _ _ => .exn "down") initSt).1 =
      .jObj [("enabled", .jBool false), ("message", .jStr "down")] ∧
    (BlenderConnection.get_hyper3d_status (fun _ _ _ => .exn "down") initSt).1 =
      .jObj [("enabled", .jBool false), ("message", .jStr "down")] :=
  ⟨(status_checks_never_raise (fun _ _ _ => .exn "down") initSt "down").1 rfl,
   (status_checks_never_raise (fun _ _ _ => .exn "down") initSt "down").2 rfl⟩

/-- Helper: the after-loop code of receive_full_response only returns data
the parse oracle accepts. -/
theorem receiveAfterLoop_parses (parse : String → Bool) (chunks : List String) (d : String) :
    receiveAfterLoop parse chunks = .ok d → parse d = true := by
  unfold receiveAfterLoop
  intro h
  split at h
  · exact nomatch h
  · split at h
    · injection h with h2; subst h2; assumption
    · exact nomatch h

/-- Helper: the receive loop only returns data the parse oracle accepts,
whatever chunks were already accumulated. -/
theorem receiveLoop_parses (parse : String → Bool) :
    ∀ (events : List RecvEvent) (chunks : List String) (d : String),
      receiveLoop parse events chunks = .ok d → parse d = true := by
  intro events
  induction events with
  | nil => intro chunks d h; exact receiveAfterLoop_parses parse chunks d h
  | cons e rest ih =>
    intro chunks d h
    cases e with
    | chunk data =>
      simp only [receiveLoop] at h
      split at h
      · split at h
        · exact nomatch h
        · exact receiveAfterLoop_parses _ _ _ h
      · split at h
        · injection h with h2; subst h2; assumption
        · exact ih _ _ h
    | timeout =>
      simp only [receiveLoop] at h
      exact receiveAfterLoop_parses _ _ _ h
    | connError m =>
      simp only [receiveLoop] at h
      exact nomatch h

/-- C7: receive_full_response returns a byte sequence only when it parses
as a complete JSON value under the parse oracle, so incomplete data is
never returned; and with no data received at all it raises the no-data
error. -/
theorem receive_full_response_returns_only_parsed :
    (∀ (parse : String → Bool) (events : List RecvEvent) (d : String),
        receive_full_response parse events = .ok d → parse d = true) ∧
    ∀ parse : String → Bool, receive_full_response parse [] = .exn "No data received" :=
  ⟨fun parse events d h => receiveLoop_parses parse events [] d h, fun _ => rfl⟩

/-- Witness for C7: a response that completes after two chunks is returned
exactly when the accumulated data parses. -/
theorem receive_full_response_returns_only_parsed_witness :
    (fun s => s == "ab") "ab" = true :=
  receive_full_response_returns_only_parsed.1 (fun s => s == "ab")
    [.chunk "a", .chunk "b"] "ab" rfl

/-- C4: create_object with type CUBE and name Box1 issues the
create_object command whose serialized document is exactly the JSON object
with type create_object and the two parameters, and formats the success
response into the created-object message. -/
theorem create_object_cube_box1_example :
    create_object
        (envOfResponses (fun _ _ _ =>
          .jObj [("status", .jStr "success"), ("result", .jObj [("name", .jStr "Box1")])]))
        "CUBE" (some "Box1") none none none =
      (.ok (.jStr "Created CUBE object: Box1"),
       ⟨[("create_object", .jObj [("type", .jStr "CUBE"), ("name", .jStr "Box1")])], 0⟩) ∧
    command_json "create_object" (.jObj [("type", .jStr "CUBE"), ("name", .jStr "Box1")]) =
      .jObj [("type", .jStr "create_object"),
             ("params", .jObj [("type", .jStr "CUBE"), ("name", .jStr "Box1")])] :=
  ⟨rfl, rfl⟩

/-- C1 counterexample: with a remote peer that answers the create_object
command with a status error response carrying the message boom, the
create_object wrapper does not return a descriptive string: its outcome is
a raised exception (the communication-error exception send_command built
from the message), which propagates past the wrapper, since the wrapper
has no handler of its own. -/
theorem create_object_error_status_raises :
    (create_object
        (envOfResponses (fun _ _ _ =>
          .jObj [("status", .jStr "error"), ("message", .jStr "boom")]))
        "CUBE" (some "Box1") none none none).1 =
      .exn "Communication error with Blender: boom" := rfl

/-- C1 as amended: when the remote response to the issued command has
status error with message text m, send_command raises an Exception whose
text contains m (wrapped in the communication-error text), and the command
wrappers create_object and get_scene_info let that exception propagate to
the caller instead of returning a string. -/
theorem error_status_surfaces_as_propagating_exception :
    ∀ (resp : Nat → String → JValue → JValue) (m : String),
      (∀ i t p, objGet (resp i t p) "status" = some (.jStr "error") ∧
                objGet (resp i t p) "message" = some (.jStr m)) →
      ∀ (type : String) (name : Option String) (location rotation scale : Option JValue),
        (create_object (envOfResponses resp) type name location rotation scale).1 =
          .exn ("Communication error with Blender: " ++ m) ∧
        (get_scene_info (envOfResponses resp)).1 =
          .exn ("Communication error with Blender: " ++ m) := by
  intro resp m h type name location rotation scale
  have h1 : ∀ i t p, objGet (resp i t p) "status" = some (.jStr "error") :=
    fun i t p => (h i t p).1
  have h2 : ∀ i t p, objGet (resp i t p) "message" = some (.jStr m) :=
    fun i t p => (h i t p).2
  constructor
  · simp [create_object, callCmd, envOfResponses, send_command, jEqStrO, jEqStr,
      h1, h2, objGetD, pyStr]
  · simp [get_scene_info, callCmd, envOfResponses, send_command, jEqStrO, jEqStr,
      h1, h2, objGetD, pyStr]

/-- Witness for the amended C1 at the concrete error response. -/
theorem error_status_surfaces_as_propagating_exception_witness :
    (create_object
        (envOfResponses (fun _ _ _ =>
          .jObj [("status", .jStr "error"), ("message", .jStr "cannot create")]))
        "SPHERE" none none none none).1 =
      .exn ("Communication error with Blender: " ++ "cannot create") ∧
    (get_scene_info
        (envOfResponses (fun _ _ _ =>
          .jObj [("status", .jStr "error"), ("message", .jStr "cannot create")]))).1 =
      .exn ("Communication error with Blender: " ++ "cannot create") :=
  error_status_surfaces_as_propagating_exception
    (fun _ _ _ => .jObj [("status", .jStr "error"), ("message", .jStr "cannot create")])
    "cannot create" (fun _ _ _ => ⟨rfl, rfl⟩) "SPHERE" none none none none

/-- Helper: the PolyHaven status check always appends exactly its own
status command to the trace, whatever the outcome. -/
theorem ph_status_trace (env : EnvT) (st : TraceSt) :
    (BlenderConnection.get_polyhaven_status env st).2 =
      ⟨st.calls ++ [("get_polyhaven_status", .jObj [])], st.sleeps⟩ := by
  unfold BlenderConnection.get_polyhaven_status callCmd
  cases env st.calls.length "get_polyhaven_status" (.jObj []) <;> rfl

/-- Helper: the Hyper3D status check always appends exactly its own status
command to the trace, whatever the outcome. -/
theorem h3d_status_trace (env : EnvT) (st : TraceSt) :
    (BlenderConnection.get_hyper3d_status env st).2 =
      ⟨st.calls ++ [("get_hyper3d_status", .jObj [])], st.sleeps⟩ := by
  unfold BlenderConnection.get_hyper3d_status callCmd
  cases env st.calls.length "get_hyper3d_status" (.jObj []) <;> rfl

/-- C5: when the status check of an optional integration reports it
disabled (an enabled field that is falsy), every wrapper of that
integration returns the status message (with the built-in default when the
mapping has no message) and its trace holds only the status command: the
underlying command (get_polyhaven_categories, search_polyhaven_assets,
download_polyhaven_asset, set_texture, create_rodin_job) is never sent. -/
theorem disabled_integration_short_circuits :
    ∀ env : EnvT,
      (pyTruthy (objGetD (BlenderConnection.get_polyhaven_status env initSt).1
          "enabled" (.jBool false)) = false →
        ∀ (asset_type : String) (categories : Option String)
          (asset_id resolution : String) (file_format : Option String)
          (object_name texture_id : String),
          get_polyhaven_categories env asset_type =
            (.ok (objGetD (BlenderConnection.get_polyhaven_status env initSt).1 "message"
              (.jStr "PolyHaven integration is not enabled in Blender.")),
             ⟨[("get_polyhaven_status", .jObj [])], 0⟩) ∧
          search_polyhaven_assets env asset_type categories =
            (.ok (objGetD (BlenderConnection.get_polyhaven_status env initSt).1 "message"
              (.jStr "PolyHaven integration is not enabled in Blender.")),
             ⟨[("get_polyhaven_status", .jObj [])], 0⟩) ∧
          download_polyhaven_asset env asset_id asset_type resolution file_format =
            (.ok (objGetD (BlenderConnection.get_polyhaven_status env initSt).1 "message"
              (.jStr "PolyHaven integration is not enabled in Blender.")),
             ⟨[("get_polyhaven_status", .jObj [])], 0⟩) ∧
          set_texture env object_name texture_id =
            (.ok (objGetD (BlenderConnection.get_polyhaven_status env initSt).1 "message"
              (.jStr "PolyHaven integration is not enabled in Blender.")),
             ⟨[("get_polyhaven_status", .jObj [])], 0⟩)) ∧
      (pyTruthy (objGetD (BlenderConnection.get_hyper3d_status env initSt).1
          "enabled" (.jBool false)) = false →
        ∀ (text_prompt model_name : String) (bbox_condition : Option JValue),
          generate_3d_model_from_text env text_prompt model_name bbox_condition =
            (.ok (objGetD (BlenderConnection.get_hyper3d_status env initSt).1 "message"
              (.jStr "Hyper3D Rodin integration is not enabled in Blender.")),
             ⟨[("get_hyper3d_status", .jObj [])], 0⟩)) := by
  intro env
  constructor
  · intro hph asset_type categories asset_id resolution file_format object_name texture_id
    have hcond : ¬ pyTruthy (objGetD (BlenderConnection.get_polyhaven_status env initSt).1
        "enabled" (.jBool false)) = true := by simp [hph]
    refine ⟨?_, ?_, ?_, ?_⟩
    · simp only [get_polyhaven_categories]
      rw [if_pos hcond, ph_status_trace]
      rfl
    · simp only [search_polyhaven_assets]
      rw [if_pos hcond, ph_status_trace]
      rfl
    · simp only [download_polyhaven_asset]
      rw [if_pos hcond, ph_status_trace]
      rfl
    · simp only [set_texture]
      rw [if_pos hcond, ph_status_trace]
      rfl
  · intro hh3 text_prompt model_name bbox_condition
    have hcond : ¬ pyTruthy (objGetD (BlenderConnection.get_hyper3d_status env initSt).1
        "enabled" (.jBool false)) = true := by simp [hh3]
    simp only [generate_3d_model_from_text]
    rw [if_pos hcond, h3d_status_trace]
    rfl

/-- Witness for C5 at an environment whose status checks raise, which the
status-check methods turn into a disabled mapping with message down. -/
theorem disabled_integration_short_circuits_witness :
    (get_polyhaven_categories (fun _ _ _ => .exn "down") "hdris" =
      (.ok (.jStr "down"), ⟨[("get_polyhaven_status", .jObj [])], 0⟩) ∧
     search_polyhaven_assets (fun _ _ _ => .exn "down") "all" none =
      (.ok (.jStr "down"), ⟨[("get_polyhaven_status", .jObj [])], 0⟩) ∧
     download_polyhaven_asset (fun _ _ _ => .exn "down") "a" "hdris" "1k" none =
      (.ok (.jStr "down"), ⟨[("get_polyhaven_status", .jObj [])], 0⟩) ∧
     set_texture (fun _ _ _ => .exn "down") "Cube" "t" =
      (.ok (.jStr "down"), ⟨[("get_polyhaven_status", .jObj [])], 0⟩)) ∧
    generate_3d_model_from_text (fun _ _ _ => .exn "down") "a cube" "m" none =
      (.ok (.jStr "down"), ⟨[("get_hyper3d_status", .jObj [])], 0⟩) :=
  ⟨(disabled_integration_short_circuits (fun _ _ _ => .exn "down")).1 rfl
      "hdris" none "a" "1k" none "Cube" "t",
   (disabled_integration_short_circuits (fun _ _ _ => .exn "down")).2 rfl
      "a cube" "m" none⟩

/-- Helper: a status_list whose entries are all Done classifies the poll
response as complete. -/
theorem pollStep_all_done (xs : List JValue) (h : ∀ x ∈ xs, x = JValue.jStr "Done") :
    pollStep (.jObj [("status_list", .jArr xs)]) = .complete := by
  have hall : xs.all (fun x => jEqStr x "Done") = true := by
    rw [List.all_eq_true]
    intro x hx
    rw [h x hx]
    decide
  simp [pollStep, objGet, lookupField, pyElems, hall]

/-- Helper: a status_list holding a Failed entry classifies the poll
response as failed with the job-failure message. -/
theorem pollStep_any_failed (xs : List JValue) (h : JValue.jStr "Failed" ∈ xs) :
    pollStep (.jObj [("status_list", .jArr xs)]) =
      .failed ("Error: Job failed with status: " ++ pyStr (.jArr xs)) := by
  have hall : xs.all (fun x => jEqStr x "Done") = false := by
    rw [Bool.eq_false_iff]
    intro hc
    rw [List.all_eq_true] at hc
    exact absurd (hc _ h) (by decide)
  have hany : xs.any (fun x => jEqStr x "Failed") = true := by
    rw [List.any_eq_true]
    exact ⟨_, h, by decide⟩
  simp [pollStep, objGet, lookupField, pyElems, hall, hany]

/-- Helper: the polling loop, on an attempt answered with a response that
keeps polling, sleeps once and continues with the poll command traced. -/
theorem pollLoop_step (env : EnvT) (pp : JValue) (st : TraceSt) (sr : JValue) (f : Nat)
    (h1 : env st.calls.length "poll_rodin_job_status" pp = .ok sr)
    (h2 : pollStep sr = .keepPolling) :
    pollLoop env pp (f + 1) st =
      pollLoop env pp f ⟨st.calls ++ [("poll_rodin_job_status", pp)], st.sleeps + 1⟩ := by
  simp [pollLoop, callCmd, h1, h2]

/-- Helper: when the first k attempts keep polling and attempt k is
classified complete, the loop (with budget above k) exits complete on that
attempt, having sent k plus one poll commands and slept k times. -/
theorem pollLoop_completes_at (env : EnvT) (pp : JValue) :
    ∀ (k : Nat) (st : TraceSt) (fuel : Nat), k < fuel →
      (∀ i, i < k → ∃ sr, env (st.calls.length + i) "poll_rodin_job_status" pp = .ok sr ∧
        pollStep sr = .keepPolling) →
      (∃ sr, env (st.calls.length + k) "poll_rodin_job_status" pp = .ok sr ∧
        pollStep sr = .complete) →
      pollLoop env pp fuel st =
        (.completed, ⟨st.calls ++ List.replicate (k + 1) ("poll_rodin_job_status", pp),
          st.sleeps + k⟩) := by
  intro k
  induction k with
  | zero =>
    intro st fuel hfuel _ hterm
    obtain ⟨sr, h1, h2⟩ := hterm
    rw [Nat.add_zero] at h1
    cases fuel with
    | zero => omega
    | succ f => simp [pollLoop, callCmd, h1, h2]
  | succ k ih =>
    intro st fuel hfuel hkeep hterm
    cases fuel with
    | zero => omega
    | succ f =>
      obtain ⟨sr0, h1, h2⟩ := hkeep 0 (Nat.succ_pos k)
      rw [Nat.add_zero] at h1
      rw [pollLoop_step env pp st sr0 f h1 h2]
      have hlen : (st.calls ++ [("poll_rodin_job_status", pp)]).length = st.calls.length + 1 := by
        simp
      rw [ih ⟨st.calls ++ [("poll_rodin_job_status", pp)], st.sleeps + 1⟩ f (by omega)
        (fun i hi => by
          obtain ⟨sr, ha, hb⟩ := hkeep (i + 1) (by omega)
          refine ⟨sr, ?_, hb⟩
          have hidx : (⟨st.calls ++ [("poll_rodin_job_status", pp)], st.sleeps + 1⟩ :
              TraceSt).calls.length + i = st.calls.length + (i + 1) := by
            simp only [hlen]
            omega
          rw [hidx]
          exact ha)
        (by
          obtain ⟨sr, ha, hb⟩ := hterm
          refine ⟨sr, ?_, hb⟩
          have hidx : (⟨st.calls ++ [("poll_rodin_job_status", pp)], st.sleeps + 1⟩ :
              TraceSt).calls.length + k = st.calls.length + (k + 1) := by
            simp only [hlen]
            omega
          rw [hidx]
          exact ha)]
      simp [List.append_assoc, List.replicate_succ, List.singleton_append] <;> omega

/-- Helper: when the first k attempts keep polling and attempt k is
classified failed, the loop (with budget above k) returns the failure
message on that attempt, having sent k plus one poll commands and slept k
times. -/
theorem pollLoop_fails_at (env : EnvT) (pp : JValue) (msg : String) :
    ∀ (k : Nat) (st : TraceSt) (fuel : Nat), k < fuel →
      (∀ i, i < k → ∃ sr, env (st.calls.length + i) "poll_rodin_job_status" pp = .ok sr ∧
        pollStep sr = .keepPolling) →
      (∃ sr, env (st.calls.length + k) "poll_rodin_job_status" pp = .ok sr ∧
        pollStep sr = .failed msg) →
      pollLoop env pp fuel st =
        (.returned (.ok (.jStr msg)),
         ⟨st.calls ++ List.replicate (k + 1) ("poll_rodin_job_status", pp),
          st.sleeps + k⟩) := by
  intro k
  induction k with
  | zero =>
    intro st fuel hfuel _ hterm
    obtain ⟨sr, h1, h2⟩ := hterm
    rw [Nat.add_zero] at h1
    cases fuel with
    | zero => omega
    | succ f => simp [pollLoop, callCmd, h1, h2]
  | succ k ih =>
    intro st fuel hfuel hkeep hterm
    cases fuel with
    | zero => omega
    | succ f =>
      obtain ⟨sr0, h1, h2⟩ := hkeep 0 (Nat.succ_pos k)
      rw [Nat.add_zero] at h1
      rw [pollLoop_step env pp st sr0 f h1 h2]
      have hlen : (st.calls ++ [("poll_rodin_job_status", pp)]).length = st.calls.length + 1 := by
        simp
      rw [ih ⟨st.calls ++ [("poll_rodin_job_status", pp)], st.sleeps + 1⟩ f (by omega)
        (fun i hi => by
          obtain ⟨sr, ha, hb⟩ := hkeep (i + 1) (by omega)
          refine ⟨sr, ?_, hb⟩
          have hidx : (⟨st.calls ++ [("poll_rodin_job_status", pp)], st.sleeps + 1⟩ :
              TraceSt).calls.length + i = st.calls.length + (i + 1) := by
            simp only [hlen]
            omega
          rw [hidx]
          exact ha)
        (by
          obtain ⟨sr, ha, hb⟩ := hterm
          refine ⟨sr, ?_, hb⟩
          have hidx : (⟨st.calls ++ [("poll_rodin_job_status", pp)], st.sleeps + 1⟩ :
              TraceSt).calls.length + k = st.calls.length + (k + 1) := by
            simp only [hlen]
            omega
          rw [hidx]
          exact ha)]
      simp [List.append_assoc, List.replicate_succ, List.singleton_append] <;> omega

/-- Helper: when every attempt within the budget keeps polling, the loop
exhausts the budget, having sent one poll command and slept once per
attempt. -/
theorem pollLoop_exhausts (env : EnvT) (pp : JValue) :
    ∀ (fuel : Nat) (st : TraceSt),
      (∀ i, i < fuel → ∃ sr, env (st.calls.length + i) "poll_rodin_job_status" pp = .ok sr ∧
        pollStep sr = .keepPolling) →
      pollLoop env pp fuel st =
        (.exhausted, ⟨st.calls ++ List.replicate fuel ("poll_rodin_job_status", pp),
          st.sleeps + fuel⟩) := by
  intro fuel
  induction fuel with
  | zero => intro st _; simp [pollLoop]
  | succ f ih =>
    intro st hkeep
    obtain ⟨sr0, h1, h2⟩ := hkeep 0 (Nat.succ_pos f)
    rw [Nat.add_zero] at h1
    rw [pollLoop_step env pp st sr0 f h1 h2]
    have hlen : (st.calls ++ [("poll_rodin_job_status", pp)]).length = st.calls.length + 1 := by
      simp
    rw [ih ⟨st.calls ++ [("poll_rodin_job_status", pp)], st.sleeps + 1⟩
      (fun i hi => by
        obtain ⟨sr, ha, hb⟩ := hkeep (i + 1) (by omega)
        refine ⟨sr, ?_, hb⟩
        have hidx : (⟨st.calls ++ [("poll_rodin_job_status", pp)], st.sleeps + 1⟩ :
            TraceSt).calls.length + i = st.calls.length + (i + 1) := by
          simp only [hlen]
          omega
        rw [hidx]
        exact ha)]
    simp [List.append_assoc, List.replicate_succ, List.singleton_append] <;> omega

/-- Helper: in the generation environment, the poll at trace index 2 plus
i is answered by the i-th poll outcome. -/
theorem mkGenEnv_poll (job : PyResult JValue) (polls : Nat → PyResult JValue)
    (imp : PyResult JValue) (i : Nat) (p : JValue) :
    mkGenEnv job polls imp (2 + i) "poll_rodin_job_status" p = polls i := by
  simp [mkGenEnv]

/-- Helper: in the generation environment, the import command is answered
by the import outcome at any index. -/
theorem mkGenEnv_import (job : PyResult JValue) (polls : Nat → PyResult JValue)
    (imp : PyResult JValue) (i : Nat) (p : JValue) :
    mkGenEnv job polls imp i "import_generated_asset" p = imp := by
  simp [mkGenEnv]

/-- Helper: in the generation environment with a uuid job result, the
wrapper reaches the polling loop with empty poll parameters, the lead
commands traced, and the uuid as job id. -/
theorem generate_reduces_to_polling (polls : Nat → PyResult JValue) (imp : PyResult JValue) :
    generate_3d_model_from_text (mkGenEnv okJob polls imp) "p" "m" none =
      rodin_poll_and_import (mkGenEnv okJob polls imp) "m" (some (.jStr "j1")) none none
        rodinSt2 := rfl

/-- Helper: an early return of the polling loop is the result of the whole
wrapper call, for the argument shape of the generation theorems. -/
theorem rodin_ppi_returned (env : EnvT) (v : PyResult JValue) (st st2 : TraceSt)
    (h : pollLoop env (.jObj []) max_attempts st = (.returned v, st2)) :
    rodin_poll_and_import env "m" (some (.jStr "j1")) none none st = (v, st2) := by
  simp [rodin_poll_and_import, pyTruthyO, h]

/-- Helper: an exhausted polling loop makes the wrapper return the timeout
message, for the argument shape of the generation theorems. -/
theorem rodin_ppi_exhausted (env : EnvT) (st st2 : TraceSt)
    (h : pollLoop env (.jObj []) max_attempts st = (.exhausted, st2)) :
    rodin_poll_and_import env "m" (some (.jStr "j1")) none none st =
      (.ok (.jStr "Error: Job timed out without completion"), st2) := by
  simp [rodin_poll_and_import, pyTruthyO, h]

/-- Helper: a completed polling loop makes the wrapper issue the import
command with the task uuid and, on a succeeding import outcome, return the
success message. -/
theorem rodin_ppi_completed (env : EnvT) (st st2 : TraceSt)
    (h : pollLoop env (.jObj []) max_attempts st = (.completed, st2))
    (himp : env st2.calls.length "import_generated_asset"
        (.jObj [("name", .jStr "m"), ("task_uuid", .jStr "j1")]) =
      .ok (.jObj [("succeed", .jBool true)])) :
    rodin_poll_and_import env "m" (some (.jStr "j1")) none none st =
      (.ok (.jStr rodinSuccessMsg), ⟨st2.calls ++ [rodinImportCall], st2.sleeps⟩) := by
  simp [rodin_poll_and_import, pyTruthyO, h, callCmd, himp, pyTruthy, objGetD, objGet,
    lookupField, rodinSuccessMsg, rodinImportCall]

/-- C2: in the polling loop of generate_3d_model_from_text, run against a
remote that creates a uuid job and imports successfully: a poll response
whose status_list entries are all Done makes the loop exit complete on that
attempt (k plus one poll commands for a terminal attempt k below the
budget of max_attempts, which is 60) and the wrapper then issues
import_generated_asset; a poll response with a Failed entry makes the
wrapper return the job-failure message immediately, with no further poll
and no import; and when every attempt within the budget keeps polling, the
wrapper returns the timeout message after exactly 60 poll commands and 60
sleep calls (each being a time.sleep of sleep_interval_seconds, which is
5), with no import. The sleeps component of the trace counts the sleep
calls. -/
theorem rodin_polling_loop_contract :
    (∀ (polls : Nat → PyResult JValue) (k : Nat) (xs : List JValue),
      k < max_attempts →
      (∀ i, i < k → ∃ sr, polls i = .ok sr ∧ pollStep sr = .keepPolling) →
      polls k = .ok (.jObj [("status_list", .jArr xs)]) →
      (∀ x ∈ xs, x = JValue.jStr "Done") →
      generate_3d_model_from_text (mkGenEnv okJob polls okImport) "p" "m" none =
        (.ok (.jStr rodinSuccessMsg),
         ⟨rodinLeadCalls ++ List.replicate (k + 1) ("poll_rodin_job_status", .jObj []) ++
           [rodinImportCall], k⟩)) ∧
    (∀ (polls : Nat → PyResult JValue) (k : Nat) (xs : List JValue),
      k < max_attempts →
      (∀ i, i < k → ∃ sr, polls i = .ok sr ∧ pollStep sr = .keepPolling) →
      polls k = .ok (.jObj [("status_list", .jArr xs)]) →
      JValue.jStr "Failed" ∈ xs →
      generate_3d_model_from_text (mkGenEnv okJob polls okImport) "p" "m" none =
        (.ok (.jStr ("Error: Job failed with status: " ++ pyStr (.jArr xs))),
         ⟨rodinLeadCalls ++ List.replicate (k + 1) ("poll_rodin_job_status", .jObj []), k⟩)) ∧
    (∀ polls : Nat → PyResult JValue,
      (∀ i, i < max_attempts → ∃ sr, polls i = .ok sr ∧ pollStep sr = .keepPolling) →
      generate_3d_model_from_text (mkGenEnv okJob polls okImport) "p" "m" none =
        (.ok (.jStr "Error: Job timed out without completion"),
         ⟨rodinLeadCalls ++ List.replicate max_attempts ("poll_rodin_job_status", .jObj []),
          max_attempts⟩)) := by
  have hlen2 : rodinSt2.calls.length = 2 := rfl
  refine ⟨?_, ?_, ?_⟩
  · intro polls k xs hk hkeep hpoll hdone
    rw [generate_reduces_to_polling]
    have hc := pollLoop_completes_at (mkGenEnv okJob polls okImport) (.jObj [])
      k rodinSt2 max_attempts hk
      (fun i hi => by
        obtain ⟨sr, ha, hb⟩ := hkeep i hi
        refine ⟨sr, ?_, hb⟩
        rw [hlen2, mkGenEnv_poll]
        exact ha)
      ⟨_, by rw [hlen2, mkGenEnv_poll]; exact hpoll, pollStep_all_done xs hdone⟩
    rw [rodin_ppi_completed _ _ _ hc (by rw [mkGenEnv_import]; rfl)]
    simp [rodinSt2, rodinLeadCalls]
  · intro polls k xs hk hkeep hpoll hmem
    rw [generate_reduces_to_polling]
    have hf := pollLoop_fails_at (mkGenEnv okJob polls okImport) (.jObj [])
      ("Error: Job failed with status: " ++ pyStr (.jArr xs)) k rodinSt2 max_attempts hk
      (fun i hi => by
        obtain ⟨sr, ha, hb⟩ := hkeep i hi
        refine ⟨sr, ?_, hb⟩
        rw [hlen2, mkGenEnv_poll]
        exact ha)
      ⟨_, by rw [hlen2, mkGenEnv_poll]; exact hpoll, pollStep_any_failed xs hmem⟩
    rw [rodin_ppi_returned _ _ _ _ hf]
    simp [rodinSt2, rodinLeadCalls]
  · intro polls hkeep
    rw [generate_reduces_to_polling]
    have he := pollLoop_exhausts (mkGenEnv okJob polls okImport) (.jObj [])
      max_attempts rodinSt2
      (fun i hi => by
        obtain ⟨sr, ha, hb⟩ := hkeep i hi
        refine ⟨sr, ?_, hb⟩
        rw [hlen2, mkGenEnv_poll]
        exact ha)
    rw [rodin_ppi_exhausted _ _ _ he]
    simp [rodinSt2, rodinLeadCalls]

/-- Witness for C2 at a remote whose first poll answers with a status_list
of one Done entry. -/
theorem rodin_polling_loop_contract_witness :
    generate_3d_model_from_text
        (mkGenEnv okJob (fun _ => .ok (.jObj [("status_list", .jArr [.jStr "Done"])]))
          okImport) "p" "m" none =
      (.ok (.jStr rodinSuccessMsg),
       ⟨rodinLeadCalls ++ List.replicate 1 ("poll_rodin_job_status", .jObj []) ++
         [rodinImportCall], 0⟩) :=
  rodin_polling_loop_contract.1
    (fun _ => .ok (.jObj [("status_list", .jArr [.jStr "Done"])])) 0 [.jStr "Done"]
    (by decide) (fun _ hi => absurd hi (by omega)) rfl
    (fun x hx => by
      simp only [List.mem_singleton] at hx
      exact hx)

/-- C10: a poll response whose status_list is the empty list counts as
completion (the all check is vacuously true on an empty list), so the loop
exits on that first attempt and import_generated_asset is issued, even
though no per-item status was ever reported. -/
theorem rodin_empty_status_list_completes :
    generate_3d_model_from_text
        (mkGenEnv okJob (fun _ => .ok (.jObj [("status_list", .jArr [])])) okImport)
        "p" "m" none =
      (.ok (.jStr rodinSuccessMsg),
       ⟨rodinLeadCalls ++ [("poll_rodin_job_status", .jObj []), rodinImportCall], 0⟩) := rfl

end BlenderSpec
